import Mathlib

/-!
Verification of the DESFire host-side card library.

The development shallowly embeds the TypeScript sources:
  - the APDU codec (apdu.ts: APDU.build, APDU.buildDESFire, APDU.isSuccess,
    APDU.isAdditionalFrame);
  - the crypto helpers (crypto.ts: crc32, crc32Buffer, padData, unpadData,
    rotateLeft, aesEncrypt, and the 3DES wrappers of desfire.ts);
  - the transmit engine and card-session state machine (desfire.ts:
    DESFireCard.tryTransmitAttempts, sendCommand, getAdditionalFrame,
    selectApplication, authenticateDES, changeKeyEV2, writeData).

Buffers are lists of byte values (Nat, kept below 256 by construction at the
points where the source truncates through Buffer.from / writeUIntLE).  The
reader plus card is modelled as an oracle: a list of parsed responses that is
consumed one element per physical round trip; running out of responses plays
the role of the "Invalid APDU response: too short" error that APDU.parse
raises on an empty reply.  External library ciphers (Node crypto AES and
DES cores) are parameters of the model; the repository-visible behaviour of
Node cipher objects with setAutoPadding(false) - rejecting inputs whose
length is not a multiple of the block size - is modelled explicitly.
-/

/-- Parsed APDU response, the record produced by APDU.parse in apdu.ts:
status word bytes sw1, sw2 and the data payload that precedes them. -/
structure Parsed where
  sw1 : Nat
  sw2 : Nat
  data : List Nat
deriving DecidableEq, Repr

namespace APDU

/-- APDU.isSuccess from apdu.ts: SW = 90 00 or 91 00. -/
def isSuccess (sw1 sw2 : Nat) : Bool :=
  (sw1 == 0x90 && sw2 == 0x00) || (sw1 == 0x91 && sw2 == 0x00)

/-- APDU.isAdditionalFrame from apdu.ts: SW = 91 AF. -/
def isAdditionalFrame (sw1 sw2 : Nat) : Bool :=
  sw1 == 0x91 && sw2 == 0xAF

/-- APDU.build from apdu.ts: the four ISO 7816-4 case shapes.  Header bytes,
Lc and Le pass through Buffer.from, which truncates to one byte. -/
def build (cla ins p1 p2 : Nat) (data : Option (List Nat)) (le : Option Nat) :
    List Nat :=
  let header := [cla % 256, ins % 256, p1 % 256, p2 % 256]
  match data, le with
  | none, none => header
  | none, some l => header ++ [l % 256]
  | some d, none => header ++ [d.length % 256] ++ d
  | some d, some l => header ++ [d.length % 256] ++ d ++ [l % 256]

/-- APDU.buildDESFire from apdu.ts: CLA 0x90, P1 = P2 = 0, Le always present
(the TypeScript default argument le = 0 makes le a number at every call). -/
def buildDESFire (cmd : Nat) (data : Option (List Nat)) (le : Nat) : List Nat :=
  build 0x90 cmd 0x00 0x00 data (some le)

end APDU

/-- Buffer.writeUIntLE(v, 0, 3) of desfire.ts: three little-endian bytes. -/
def uintLE3 (v : Nat) : List Nat :=
  [v % 256, v / 256 % 256, v / 65536 % 256]

/-- One shift-and-conditional-xor round of the crc32 inner loop in
crypto.ts (crc = crc & 1 ? (crc >>> 1) ^ poly : crc >>> 1). -/
def crc32Bit (crc : Nat) : Nat :=
  if crc % 2 = 1 then (crc / 2) ^^^ 0xEDB88320 else crc / 2

/-- One byte of the crc32 outer loop in crypto.ts: xor the byte in, then run
eight bit rounds. -/
def crc32Byte (crc b : Nat) : Nat :=
  (List.range 8).foldl (fun c _ => crc32Bit c) (crc ^^^ b)

/-- crc32 from crypto.ts: reflected CRC-32, init 0xFFFFFFFF, polynomial
0xEDB88320; the JavaScript final step (~crc) >>> 0 is the xor of the running
32-bit value with 0xFFFFFFFF. -/
def crc32 (data : List Nat) : Nat :=
  0xFFFFFFFF ^^^ data.foldl crc32Byte 0xFFFFFFFF

/-- crc32Buffer from crypto.ts: the crc32 value written with
Buffer.writeUInt32LE, four little-endian bytes. -/
def crc32Buffer (data : List Nat) : List Nat :=
  let crc := crc32 data
  [crc % 256, crc / 256 % 256, crc / 65536 % 256, crc / 16777216 % 256]

/-- padData from crypto.ts (ISO/IEC 9797-1 method 2): paddingLength =
blockSize - data.length % blockSize bytes are appended, the first 0x80 and
the rest zero.  For a positive block size the padding length is always at
least one byte; the degenerate guard mirrors the no-op write that
padding[0] = 0x80 performs on an empty buffer. -/
def padData (data : List Nat) (blockSize : Nat) : List Nat :=
  let paddingLength := blockSize - data.length % blockSize
  if paddingLength = 0 then data
  else data ++ 0x80 :: List.replicate (paddingLength - 1) 0

/-- Scanning loop of unpadData in crypto.ts, walking index i from the end of
the buffer towards 0: a 0x80 byte cuts the buffer there, any other non-zero
byte means no valid padding, zeros are skipped. -/
def unpadGo (data : List Nat) : Nat → List Nat
  | 0 =>
    if h : 0 < data.length then
      if data[0] == 0x80 then [] else data
    else data
  | i + 1 =>
    if h : i + 1 < data.length then
      let b := data[i + 1]
      if b == 0x80 then data.take (i + 1)
      else if b != 0 then data
      else unpadGo data i
    else data

/-- unpadData from crypto.ts: scan from the last byte; an empty buffer is
returned unchanged (the source loop body never runs). -/
def unpadData (data : List Nat) : List Nat :=
  if data.length = 0 then data else unpadGo data (data.length - 1)

/-- rotateLeft from crypto.ts: result[i] = buffer[(i + bytes) % length]. -/
def rotateLeft (buffer : List Nat) (bytes : Nat) : List Nat :=
  (List.range buffer.length).map fun i => buffer.getD ((i + bytes) % buffer.length) 0

/-- External AES-128-CBC cipher core (Node crypto), taking key, IV and data.
Only its repository-visible interface is modelled; the cipher itself lives
outside the repository. -/
def AesCore : Type := List Nat → List Nat → List Nat → List Nat

/-- aesEncrypt from crypto.ts: Node createCipheriv aes-128-cbc with
setAutoPadding(false); cipher.final() raises a wrong-final-block-length
error whenever the input is not a multiple of 16 bytes. -/
def aesEncrypt (core : AesCore) (key data iv : List Nat) :
    Except String (List Nat) :=
  if data.length % 16 = 0 then .ok (core key iv data)
  else .error "wrong final block length"

/-- External 2TDEA/3TDEA CBC cipher pair (Node crypto des-ede-cbc and
des-ede3-cbc; desfire.ts selects by key length), taking key, IV and data. -/
structure DesCore where
  enc : List Nat → List Nat → List Nat → List Nat
  dec : List Nat → List Nat → List Nat → List Nat

/-- DESFireCard.des3Encrypt: Node cipher with autopadding disabled rejects
inputs that are not a multiple of the 8-byte DES block. -/
def des3Encrypt (c : DesCore) (data key iv : List Nat) :
    Except String (List Nat) :=
  if data.length % 8 = 0 then .ok (c.enc key iv data)
  else .error "wrong final block length"

/-- DESFireCard.des3Decrypt, with the same block-length behaviour. -/
def des3Decrypt (c : DesCore) (data key iv : List Nat) :
    Except String (List Nat) :=
  if data.length % 8 = 0 then .ok (c.dec key iv data)
  else .error "wrong final block length"

/-- Buffer.slice(-n) of desfire.ts: the last n bytes (the whole buffer when
it is shorter than n). -/
def lastBytes (n : Nat) (l : List Nat) : List Nat :=
  l.drop (l.length - n)

/-- Session-relevant fields of the DESFireCard class (desfire.ts), with the
initial values given at the field declarations. -/
structure CardState where
  currentApp : Option Nat
  preferNoLe : Bool
  authenticated : Bool
  authenticatedKeyNo : Option Nat
  sessionKeyEnc : Option (List Nat)
  sessionKeyMac : Option (List Nat)
  transactionId : Option (List Nat)
  commandCounter : Nat
deriving DecidableEq, Repr

/-- Field initialisers of the DESFireCard constructor. -/
def initialState : CardState :=
  ⟨none, true, false, none, none, none, none, 0⟩

/-- DESFireCard.resetAuth: clear the authentication flag and key number,
zero-fill and drop both session keys, drop the transaction id and reset the
command counter. -/
def resetAuth (s : CardState) : CardState :=
  { s with
    authenticated := false
    authenticatedKeyNo := none
    sessionKeyEnc := none
    sessionKeyMac := none
    transactionId := none
    commandCounter := 0 }

deriving instance DecidableEq for Except

/-- Outcome of DESFireCard.tryTransmitAttempts: the parsed response (or the
error raised inside transmitParsed), the possibly-updated Le preference, the
unconsumed part of the response oracle, and the log of transmitted APDUs. -/
structure TxOut where
  result : Except String Parsed
  pref : Bool
  trace : List Parsed
  log : List (List Nat)
deriving DecidableEq, Repr

/-- Loop body of DESFireCard.tryTransmitAttempts.  Each attempt transmits
its APDU (consuming one oracle response); a success or additional-frame
status is accepted and flips the preference to the form just used; a
length error (91 7E / 91 A1) advances to the next attempt, remembering the
response as last; any other status is returned as is.  When all attempts
are exhausted the last length-error response is returned (the source reads
last with a non-null assertion, which crashes when no attempt ran). -/
def tryAux (pref : Bool) (last : Option Parsed)
    (attempts : List (List Nat × Bool)) (trace : List Parsed)
    (log : List (List Nat)) : TxOut :=
  match attempts with
  | [] =>
    match last with
    | some p => ⟨.ok p, pref, trace, log⟩
    | none => ⟨.error "tryTransmitAttempts: no attempts", pref, trace, log⟩
  | (apdu, usesLe) :: rest =>
    match trace with
    | [] => ⟨.error "Invalid APDU response: too short", pref, [], log ++ [apdu]⟩
    | p :: tr =>
      if APDU.isSuccess p.sw1 p.sw2 || APDU.isAdditionalFrame p.sw1 p.sw2 then
        ⟨.ok p, !usesLe, tr, log ++ [apdu]⟩
      else if !(p.sw1 == 0x91 && (p.sw2 == 0x7E || p.sw2 == 0xA1)) then
        ⟨.ok p, pref, tr, log ++ [apdu]⟩
      else
        tryAux pref (some p) rest tr (log ++ [apdu])

/-- DESFireCard.tryTransmitAttempts, entered with no last response. -/
def tryTransmitAttempts (pref : Bool) (attempts : List (List Nat × Bool))
    (trace : List Parsed) : TxOut :=
  tryAux pref none attempts trace []

/-- No-data attempt list of DESFireCard.sendCommand and getAdditionalFrame:
the bare 4-byte header first when the preference is no-Le, the 5-byte form
with Le = 0x00 first otherwise. -/
def noDataAttempts (cmd : Nat) (pref : Bool) : List (List Nat × Bool) :=
  if pref then
    [([0x90, cmd % 256, 0x00, 0x00], false),
     ([0x90, cmd % 256, 0x00, 0x00, 0x00], true)]
  else
    [([0x90, cmd % 256, 0x00, 0x00, 0x00], true),
     ([0x90, cmd % 256, 0x00, 0x00], false)]

/-- With-data attempt list of DESFireCard.sendCommand (also built inline by
authenticateDES): case-3 APDU first when the preference is no-Le, case-4
with Le = 0 first otherwise. -/
def withDataAttempts (cmd : Nat) (d : List Nat) (pref : Bool) :
    List (List Nat × Bool) :=
  if pref then
    [(APDU.build 0x90 cmd 0x00 0x00 (some d) none, false),
     (APDU.build 0x90 cmd 0x00 0x00 (some d) (some 0), true)]
  else
    [(APDU.build 0x90 cmd 0x00 0x00 (some d) (some 0), true),
     (APDU.build 0x90 cmd 0x00 0x00 (some d) none, false)]

/-- Attempt-list selection of DESFireCard.sendCommand: the with-data shapes
require data with a nonzero length (if (data && data.length)). -/
def sendCommandAttempts (cmd : Nat) (data : Option (List Nat)) (pref : Bool) :
    List (List Nat × Bool) :=
  match data with
  | some d => if d.length ≠ 0 then withDataAttempts cmd d pref
              else noDataAttempts cmd pref
  | none => noDataAttempts cmd pref

lemma tryAux_consumes (attempts : List (List Nat × Bool)) :
    ∀ (pref : Bool) (last : Option Parsed) (trace : List Parsed)
      (log : List (List Nat)) (p : Parsed),
      (tryAux pref last attempts trace log).result = .ok p →
      (tryAux pref last attempts trace log).trace.length < trace.length ∨
        (last = some p ∧ (tryAux pref last attempts trace log).trace = trace) := by
  induction attempts with
  | nil =>
    intro pref last trace log p h
    match last with
    | some q =>
      simp only [tryAux, Except.ok.injEq] at h
      subst h
      exact Or.inr ⟨rfl, rfl⟩
    | none => simp [tryAux] at h
  | cons a rest ih =>
    intro pref last trace log p h
    obtain ⟨apdu, usesLe⟩ := a
    match trace with
    | [] => simp [tryAux] at h
    | q :: tr =>
      simp only [tryAux] at h ⊢
      by_cases h1 : (APDU.isSuccess q.sw1 q.sw2 || APDU.isAdditionalFrame q.sw1 q.sw2) = true
      · simp only [h1, if_true] at h ⊢
        simp
      · simp only [h1] at h ⊢
        by_cases h2 : (!(q.sw1 == 0x91 && (q.sw2 == 0x7E || q.sw2 == 0xA1))) = true
        · simp only [h2, if_true] at h ⊢
          simp
        · simp only [h2] at h ⊢
          rcases ih pref (some q) tr (log ++ [apdu]) p h with hlt | ⟨_, heq⟩
          · exact Or.inl (Nat.lt_trans hlt (Nat.lt_succ_self _))
          · exact Or.inl (by simp [heq])

/-- A successful tryTransmitAttempts call consumed at least one oracle
response. -/
lemma tryTransmitAttempts_consumes (pref : Bool)
    (attempts : List (List Nat × Bool)) (trace : List Parsed) (p : Parsed)
    (h : (tryTransmitAttempts pref attempts trace).result = .ok p) :
    (tryTransmitAttempts pref attempts trace).trace.length < trace.length := by
  rcases tryAux_consumes attempts pref none trace [] p h with hlt | ⟨hc, _⟩
  · exact hlt
  · exact absurd hc (by simp)

/-- Outcome of DESFireCard.getAdditionalFrame: accumulated payload (or the
propagated transmit error), final Le preference, remaining oracle and APDU
log. -/
structure GafOut where
  result : Except String (List Nat)
  pref : Bool
  trace : List Parsed
  log : List (List Nat)
deriving DecidableEq, Repr

/-- DESFireCard.getAdditionalFrame: send ADDITIONAL_FRAME with the preferred
no-data shape; while the response status stays 91 AF recurse and concatenate
the payload fragments; any other status terminates the accumulation and its
payload is the final fragment. -/
def getAdditionalFrame (pref : Bool) (trace : List Parsed) : GafOut :=
  match hres : (tryTransmitAttempts pref (noDataAttempts 0xAF pref) trace).result with
  | .error e =>
    ⟨.error e, (tryTransmitAttempts pref (noDataAttempts 0xAF pref) trace).pref,
      (tryTransmitAttempts pref (noDataAttempts 0xAF pref) trace).trace,
      (tryTransmitAttempts pref (noDataAttempts 0xAF pref) trace).log⟩
  | .ok p =>
    if APDU.isAdditionalFrame p.sw1 p.sw2 then
      let tx := tryTransmitAttempts pref (noDataAttempts 0xAF pref) trace
      let sub := getAdditionalFrame tx.pref tx.trace
      match sub.result with
      | .error e => ⟨.error e, sub.pref, sub.trace, tx.log ++ sub.log⟩
      | .ok d => ⟨.ok (p.data ++ d), sub.pref, sub.trace, tx.log ++ sub.log⟩
    else
      ⟨.ok p.data, (tryTransmitAttempts pref (noDataAttempts 0xAF pref) trace).pref,
        (tryTransmitAttempts pref (noDataAttempts 0xAF pref) trace).trace,
        (tryTransmitAttempts pref (noDataAttempts 0xAF pref) trace).log⟩
termination_by trace.length
decreasing_by
  exact tryTransmitAttempts_consumes _ _ _ _ hres

/-- Outcome of DESFireCard.sendCommand: the reassembled payload (or error),
the updated session state, remaining oracle and APDU log. -/
structure CmdOut where
  result : Except String (List Nat)
  state : CardState
  trace : List Parsed
  log : List (List Nat)
deriving DecidableEq, Repr

/-- DESFireCard.sendCommand: build the attempt list from the Le preference,
transmit through tryTransmitAttempts, raise on any status that is neither
success nor 91 AF, and fetch continuation frames through getAdditionalFrame
when the status is 91 AF. -/
def sendCommand (st : CardState) (cmd : Nat) (data : Option (List Nat))
    (trace : List Parsed) : CmdOut :=
  let tx := tryTransmitAttempts st.preferNoLe
    (sendCommandAttempts cmd data st.preferNoLe) trace
  match tx.result with
  | .error e => ⟨.error e, { st with preferNoLe := tx.pref }, tx.trace, tx.log⟩
  | .ok p =>
    let st1 := { st with preferNoLe := tx.pref }
    if !(APDU.isSuccess p.sw1 p.sw2) && !(APDU.isAdditionalFrame p.sw1 p.sw2) then
      ⟨.error "DESFire command failed", st1, tx.trace, tx.log⟩
    else if APDU.isAdditionalFrame p.sw1 p.sw2 then
      let sub := getAdditionalFrame st1.preferNoLe tx.trace
      match sub.result with
      | .error e =>
        ⟨.error e, { st1 with preferNoLe := sub.pref }, sub.trace, tx.log ++ sub.log⟩
      | .ok d =>
        ⟨.ok (p.data ++ d), { st1 with preferNoLe := sub.pref }, sub.trace,
          tx.log ++ sub.log⟩
    else ⟨.ok p.data, st1, tx.trace, tx.log⟩

/-- Outcome of a void card operation: unit result (or error), updated state,
remaining oracle, APDU log. -/
structure OpOut where
  result : Except String Unit
  state : CardState
  trace : List Parsed
  log : List (List Nat)
deriving DecidableEq, Repr

/-- DESFireCard.selectApplication: send SELECT_APPLICATION (0x5A) with the
3-byte little-endian AID; on success record the AID in currentApp.  No other
session field is touched. -/
def selectApplication (st : CardState) (aid : Nat) (trace : List Parsed) :
    OpOut :=
  let c := sendCommand st 0x5A (some (uintLE3 aid)) trace
  match c.result with
  | .error e => ⟨.error e, c.state, c.trace, c.log⟩
  | .ok _ => ⟨.ok (), { c.state with currentApp := some aid }, c.trace, c.log⟩

/-- Key-selection line of DESFireCard.authenticateDES: a supplied key is
used only when its length is 16 or 24; anything else, including an omitted
key, falls back to the 16-byte all-zero factory default. -/
def desAuthKey : Option (List Nat) → List Nat
  | some k => if k.length = 16 ∨ k.length = 24 then k else List.replicate 16 0
  | none => List.replicate 16 0

/-- Body of DESFireCard.authenticateDES after the key has been selected:
step 1 sends AUTHENTICATE (0x0A) with the key number and expects enc(RndB);
step 2 decrypts RndB with IV = 0, sends the encrypted challenge
RndA followed by rol1(RndB) under ADDITIONAL_FRAME (IV = the trailing block
of enc(RndB)), decrypts the returned enc(rol1(RndA)) with IV = the trailing
block of the challenge ciphertext, and compares.  Only on full success are
authenticated and authenticatedKeyNo written; no failure path touches or
clears any session field. -/
def authenticateDESGo (des : DesCore) (rndA : List Nat) (st : CardState)
    (keyNo : Nat) (authKey : List Nat) (trace : List Parsed) : OpOut :=
  let cmd1 := [keyNo % 256]
  let r1 := tryTransmitAttempts st.preferNoLe
    (withDataAttempts 0x0A cmd1 st.preferNoLe) trace
  match r1.result with
  | .error e => ⟨.error e, { st with preferNoLe := r1.pref }, r1.trace, r1.log⟩
  | .ok p1 =>
    let st1 := { st with preferNoLe := r1.pref }
    if !(APDU.isAdditionalFrame p1.sw1 p1.sw2) && !(APDU.isSuccess p1.sw1 p1.sw2) then
      ⟨.error "DESFire Authenticate (DES) failed", st1, r1.trace, r1.log⟩
    else
      let encRndB := p1.data
      if encRndB.length < 8 then
        ⟨.error "Invalid Authenticate response: encRndB too short", st1,
          r1.trace, r1.log⟩
      else
        match des3Decrypt des (encRndB.take 8) authKey (List.replicate 8 0) with
        | .error e => ⟨.error e, st1, r1.trace, r1.log⟩
        | .ok rndB =>
          let rndBPrime := rotateLeft rndB 1
          let challenge := rndA ++ rndBPrime
          match des3Encrypt des challenge authKey (lastBytes 8 encRndB) with
          | .error e => ⟨.error e, st1, r1.trace, r1.log⟩
          | .ok encChallenge =>
            let r2 := tryTransmitAttempts st1.preferNoLe
              (withDataAttempts 0xAF encChallenge st1.preferNoLe) r1.trace
            match r2.result with
            | .error e =>
              ⟨.error e, { st1 with preferNoLe := r2.pref }, r2.trace,
                r1.log ++ r2.log⟩
            | .ok p2 =>
              let st2 := { st1 with preferNoLe := r2.pref }
              if !(APDU.isSuccess p2.sw1 p2.sw2) && !(APDU.isAdditionalFrame p2.sw1 p2.sw2) then
                ⟨.error "DESFire Authenticate (DES) step 2 failed", st2,
                  r2.trace, r1.log ++ r2.log⟩
              else
                let encRndAPrime := p2.data
                if encRndAPrime.length < 8 then
                  ⟨.error "Invalid Authenticate response: encRndAPrime too short",
                    st2, r2.trace, r1.log ++ r2.log⟩
                else
                  match des3Decrypt des (encRndAPrime.take 8) authKey
                      (lastBytes 8 encChallenge) with
                  | .error e => ⟨.error e, st2, r2.trace, r1.log ++ r2.log⟩
                  | .ok rndAPrime =>
                    if rndAPrime ≠ rotateLeft rndA 1 then
                      ⟨.error "Authentication (DES) failed: RndA verification failed",
                        st2, r2.trace, r1.log ++ r2.log⟩
                    else
                      ⟨.ok (),
                        { st2 with
                          authenticated := true
                          authenticatedKeyNo := some keyNo },
                        r2.trace, r1.log ++ r2.log⟩

/-- DESFireCard.authenticateDES, keyed through desAuthKey.  The host-chosen
nonce RndA (CryptoUtils.generateRandom(8) in the source) is a parameter of
the model. -/
def authenticateDES (des : DesCore) (rndA : List Nat) (st : CardState)
    (keyNo : Nat) (key : Option (List Nat)) (trace : List Parsed) : OpOut :=
  authenticateDESGo des rndA st keyNo (desAuthKey key) trace

/-- DESFireCard.changeKeyEV2: requires an authenticated session holding a
session encryption key and a 16-byte new key, builds
keyData = NewKey with the version byte appended, computes CRC32 over
[0xC6, keyNo] followed by keyData, encrypts keyData with the CRC appended
under the session encryption key (aesEncrypt default IV = 0), and sends
CHANGE_KEY_EV2 (0xC6) with keyNo followed by the ciphertext.  The plaintext
is passed to aesEncrypt without padding. -/
def changeKeyEV2 (aes : AesCore) (st : CardState) (keyNo : Nat)
    (newKey : List Nat) (newKeyVersion : Nat) (trace : List Parsed) : OpOut :=
  match st.authenticated, st.sessionKeyEnc with
  | true, some sk =>
    if newKey.length ≠ 16 then
      ⟨.error "AES-128 keys must be 16 bytes", st, trace, []⟩
    else
      let keyData := newKey ++ [newKeyVersion % 256]
      let crcData := [0xC6, keyNo % 256] ++ keyData
      let crc := crc32Buffer crcData
      let plainData := keyData ++ crc
      match aesEncrypt aes sk plainData (List.replicate 16 0) with
      | .error e => ⟨.error e, st, trace, []⟩
      | .ok encryptedData =>
        let commandData := [keyNo % 256] ++ encryptedData
        let c := sendCommand st 0xC6 (some commandData) trace
        ⟨c.result.map (fun _ => ()), c.state, c.trace, c.log⟩
  | _, _ =>
    ⟨.error "EV2 authentication required for ChangeKeyEV2", st, trace, []⟩

/-- Per-frame payload budget of DESFireCard.writeData (MAX_CHUNK). -/
def MAX_CHUNK : Nat := 40

/-- Chunk taken by one iteration of the writeData loop:
data.slice(sent, sent + Math.min(remaining, MAX_CHUNK)). -/
def writeDataChunk (data : List Nat) (sent : Nat) : List Nat :=
  (data.drop sent).take (min (data.length - sent) MAX_CHUNK)

lemma writeDataChunk_length (data : List Nat) (sent : Nat) :
    (writeDataChunk data sent).length = min (data.length - sent) MAX_CHUNK := by
  simp [writeDataChunk, Nat.min_comm (data.length - sent) MAX_CHUNK,
    Nat.min_assoc]

lemma writeDataChunk_length_pos (data : List Nat) (sent : Nat)
    (h : sent < data.length) : 0 < (writeDataChunk data sent).length := by
  rw [writeDataChunk_length]
  have : 0 < data.length - sent := Nat.sub_pos_of_lt h
  simp [MAX_CHUNK]
  omega

/-- Outcome of DESFireCard.writeData, which talks to transmitParsed directly
and never updates the session state: result, remaining oracle, APDU log. -/
structure WrOut where
  result : Except String Unit
  trace : List Parsed
  log : List (List Nat)
deriving DecidableEq, Repr

/-- Additional-frame loop of DESFireCard.writeData: while data remains, send
the next chunk of at most MAX_CHUNK bytes under ADDITIONAL_FRAME with
Le = 0x00 first, re-sending once without Le on a length error (91 7E /
91 A1); any status other than success or 91 AF aborts. -/
def writeDataAF (data : List Nat) (sent : Nat) (trace : List Parsed)
    (log : List (List Nat)) : WrOut :=
  if hlt : sent < data.length then
    let chunk := writeDataChunk data sent
    match trace with
    | [] =>
      ⟨.error "Invalid APDU response: too short", [],
        log ++ [APDU.build 0x90 0xAF 0x00 0x00 (some chunk) (some 0)]⟩
    | p :: tr =>
      let log1 := log ++ [APDU.build 0x90 0xAF 0x00 0x00 (some chunk) (some 0)]
      if p.sw1 == 0x91 && (p.sw2 == 0x7E || p.sw2 == 0xA1) then
        match tr with
        | [] =>
          ⟨.error "Invalid APDU response: too short", [],
            log1 ++ [APDU.build 0x90 0xAF 0x00 0x00 (some chunk) none]⟩
        | p2 :: tr2 =>
          let log2 := log1 ++ [APDU.build 0x90 0xAF 0x00 0x00 (some chunk) none]
          if !(APDU.isSuccess p2.sw1 p2.sw2) && !(APDU.isAdditionalFrame p2.sw1 p2.sw2) then
            ⟨.error "DESFire WriteData (AF) failed", tr2, log2⟩
          else writeDataAF data (sent + chunk.length) tr2 log2
      else
        if !(APDU.isSuccess p.sw1 p.sw2) && !(APDU.isAdditionalFrame p.sw1 p.sw2) then
          ⟨.error "DESFire WriteData (AF) failed", tr, log1⟩
        else writeDataAF data (sent + chunk.length) tr log1
  else ⟨.ok (), trace, log⟩
termination_by data.length - sent
decreasing_by
  · have := writeDataChunk_length_pos data sent hlt
    omega
  · have := writeDataChunk_length_pos data sent hlt
    omega

/-- DESFireCard.writeData: the lead frame carries fileNo, 3-byte LE offset,
3-byte LE total length and the first chunk of at most MAX_CHUNK data bytes,
wrapped by APDU.buildDESFire under opcode 0x3D with Le = 0; the remaining
data follows in ADDITIONAL_FRAME frames. -/
def writeData (fileNo offset : Nat) (data : List Nat) (trace : List Parsed) :
    WrOut :=
  let offsetBuffer := uintLE3 offset
  let lengthBuffer := uintLE3 data.length
  let firstChunk := data.take (min data.length MAX_CHUNK)
  let firstPayload := [fileNo % 256] ++ offsetBuffer ++ lengthBuffer ++ firstChunk
  let leadApdu := APDU.buildDESFire 0x3D (some firstPayload) 0
  match trace with
  | [] => ⟨.error "Invalid APDU response: too short", [], [leadApdu]⟩
  | p :: tr =>
    if !(APDU.isSuccess p.sw1 p.sw2) && !(APDU.isAdditionalFrame p.sw1 p.sw2) then
      ⟨.error "DESFire WriteData failed", tr, [leadApdu]⟩
    else writeDataAF data firstChunk.length tr [leadApdu]

/-- Chunk decomposition performed by the writeData loop: the successive
writeDataChunk slices from a given start position. -/
def chunksFrom (data : List Nat) (sent : Nat) : List (List Nat) :=
  if hlt : sent < data.length then
    writeDataChunk data sent ::
      chunksFrom data (sent + (writeDataChunk data sent).length)
  else []
termination_by data.length - sent
decreasing_by
  have := writeDataChunk_length_pos data sent hlt
  omega

/-- C7, counterexample: crc32Buffer of the ASCII string 123456789 is not
the byte sequence CB F4 39 26; those are the CRC digits in value order,
while crc32Buffer emits the 32-bit value 0xCBF43926 little-endian. -/
theorem crc32Buffer_counterexample :
    crc32Buffer [0x31, 0x32, 0x33, 0x34, 0x35, 0x36, 0x37, 0x38, 0x39] ≠
      [0xCB, 0xF4, 0x39, 0x26] := by
  set_option maxRecDepth 10000 in decide

/-- C7, amended: crc32Buffer maps the empty buffer to 00 00 00 00 and the
ASCII string 123456789 to the little-endian bytes 26 39 F4 CB, the CRC-32
check value 0xCBF43926 in little-endian byte order. -/
theorem crc32_check_values :
    crc32Buffer [] = [0x00, 0x00, 0x00, 0x00] ∧
    crc32Buffer [0x31, 0x32, 0x33, 0x34, 0x35, 0x36, 0x37, 0x38, 0x39] =
      [0x26, 0x39, 0xF4, 0xCB] ∧
    crc32 [0x31, 0x32, 0x33, 0x34, 0x35, 0x36, 0x37, 0x38, 0x39] = 0xCBF43926 := by
  set_option maxRecDepth 10000 in decide


lemma padData_eq (m : List Nat) :
    padData m 16 = m ++ 0x80 :: List.replicate (16 - m.length % 16 - 1) 0 := by
  have hr : m.length % 16 < 16 := Nat.mod_lt _ (by norm_num)
  have h : ¬(16 - m.length % 16 = 0) := by omega
  simp only [padData, if_neg h]

lemma unpadGo_pad (m : List Nat) (k : Nat) :
    ∀ j, j ≤ k → unpadGo (m ++ 0x80 :: List.replicate k 0) (m.length + j) = m := by
  intro j
  induction j with
  | zero =>
    intro _
    cases m with
    | nil => simp [unpadGo]
    | cons a t =>
      have hlen : (a :: t).length + 0 = t.length + 1 := by simp
      rw [hlen]
      have hlt : t.length + 1 < ((a :: t) ++ 0x80 :: List.replicate k 0).length := by
        simp
      have hget : ((a :: t) ++ 0x80 :: List.replicate k 0)[t.length + 1] = 0x80 := by
        rw [List.getElem_append_right (by simp)]
        simp
      rw [unpadGo, dif_pos hlt]
      simp only [hget]
      norm_num
  | succ j ih =>
    intro hj
    have hjk : j < k := by omega
    have hlt : m.length + j + 1 < (m ++ 0x80 :: List.replicate k 0).length := by
      simp; omega
    have hget : (m ++ 0x80 :: List.replicate k 0)[m.length + j + 1] = 0 := by
      rw [List.getElem_append_right (by omega)]
      have : m.length + j + 1 - m.length = j + 1 := by omega
      simp only [this, List.getElem_cons_succ]
      exact List.getElem_replicate ..
    have harr : m.length + (j + 1) = m.length + j + 1 := by omega
    rw [harr, unpadGo, dif_pos hlt]
    simp only [hget]
    norm_num
    exact ih (by omega)

lemma unpadData_padData (m : List Nat) : unpadData (padData m 16) = m := by
  rw [padData_eq]
  have hlen : (m ++ 0x80 :: List.replicate (16 - m.length % 16 - 1) 0).length
      = m.length + (16 - m.length % 16 - 1) + 1 := by simp; omega
  have hne : ¬((m ++ 0x80 :: List.replicate (16 - m.length % 16 - 1) 0).length = 0) := by
    rw [hlen]; omega
  rw [unpadData, if_neg hne, hlen]
  have : m.length + (16 - m.length % 16 - 1) + 1 - 1
      = m.length + (16 - m.length % 16 - 1) := by omega
  rw [this]
  exact unpadGo_pad m _ _ le_rfl

lemma padData_length (m : List Nat) :
    (padData m 16).length = m.length + (16 - m.length % 16) := by
  have hr : m.length % 16 < 16 := Nat.mod_lt _ (by norm_num)
  rw [padData_eq]
  simp
  omega

/-- C10: unpadData inverts padData on every buffer, and padData pads to the
smallest multiple of 16 strictly greater than the input length; in
particular a full extra block is appended when the length is already a
multiple of 16. -/
theorem padData_unpadData_roundtrip (m : List Nat) :
    unpadData (padData m 16) = m ∧
    (padData m 16).length = 16 * (m.length / 16 + 1) ∧
    m.length < (padData m 16).length ∧
    (padData m 16).length % 16 = 0 ∧
    (∀ n, m.length < n → n % 16 = 0 → (padData m 16).length ≤ n) ∧
    (m.length % 16 = 0 → (padData m 16).length = m.length + 16) := by
  have hlen := padData_length m
  have hdm := Nat.div_add_mod m.length 16
  have hr : m.length % 16 < 16 := Nat.mod_lt _ (by norm_num)
  refine ⟨unpadData_padData m, by omega, by omega, by omega, ?_, by omega⟩
  intro n h1 h2
  omega

/-- Witness for C10 at a concrete 5-byte buffer. -/
theorem padData_unpadData_roundtrip_witness :
    unpadData (padData [1, 2, 3, 4, 5] 16) = [1, 2, 3, 4, 5] ∧
    (padData [1, 2, 3, 4, 5] 16).length = 16 :=
  ⟨(padData_unpadData_roundtrip [1, 2, 3, 4, 5]).1,
    by have h := (padData_unpadData_roundtrip [1, 2, 3, 4, 5]).2.1; simpa using h⟩

/-- C9: a supplied key whose length is neither 16 nor 24 bytes is silently
replaced by the 16-byte all-zero factory default and the handshake proceeds
exactly as with an omitted key, while a 16- or 24-byte key is used as
supplied. -/
theorem authenticateDES_key_fallback :
    (∀ k : List Nat, k.length ≠ 16 → k.length ≠ 24 →
      desAuthKey (some k) = List.replicate 16 0 ∧
      ∀ (des : DesCore) (rndA : List Nat) (st : CardState) (keyNo : Nat)
        (trace : List Parsed),
        authenticateDES des rndA st keyNo (some k) trace =
          authenticateDES des rndA st keyNo none trace) ∧
    (∀ k : List Nat, k.length = 16 ∨ k.length = 24 → desAuthKey (some k) = k) := by
  constructor
  · intro k h16 h24
    have hk : desAuthKey (some k) = List.replicate 16 0 := by
      have : ¬(k.length = 16 ∨ k.length = 24) := by tauto
      simp [desAuthKey, this]
    refine ⟨hk, fun des rndA st keyNo trace => ?_⟩
    simp only [authenticateDES]
    rw [hk]
    rfl
  · intro k hk
    simp [desAuthKey, hk]

/-- Witness for C9: a 3-byte key falls back to the factory default, a
16-byte key is kept. -/
theorem authenticateDES_key_fallback_witness :
    desAuthKey (some [1, 2, 3]) = List.replicate 16 0 ∧
    desAuthKey (some (List.replicate 16 7)) = List.replicate 16 7 :=
  ⟨(authenticateDES_key_fallback.1 [1, 2, 3] (by decide) (by decide)).1,
   authenticateDES_key_fallback.2 (List.replicate 16 7) (by simp)⟩

/-- C3: in an authenticated session with a session encryption key, for any
16-byte new key the ChangeKeyEV2 plaintext NewKey with version byte and
CRC32 appended is 21 bytes long and is handed to AES-CBC unpadded, so the
cipher rejects it with a wrong-final-block-length error before any APDU is
transmitted; the session state is left untouched and nothing is logged. -/
theorem changeKeyEV2_unpadded_rejected (aes : AesCore) (st : CardState)
    (keyNo newKeyVersion : Nat) (newKey k : List Nat) (trace : List Parsed)
    (h1 : st.authenticated = true) (h2 : st.sessionKeyEnc = some k)
    (h3 : newKey.length = 16) :
    changeKeyEV2 aes st keyNo newKey newKeyVersion trace =
      ⟨.error "wrong final block length", st, trace, []⟩ := by
  have hplen :
      ((newKey ++ [newKeyVersion % 256]) ++
        crc32Buffer ([0xC6, keyNo % 256] ++ (newKey ++ [newKeyVersion % 256]))).length
        = 21 := by
    simp [crc32Buffer, h3]
  simp only [changeKeyEV2, h1, h2]
  rw [if_neg (by omega)]
  simp only [aesEncrypt, hplen]
  norm_num

/-- Witness for C3 at the all-zero new key in a concrete authenticated
session. -/
theorem changeKeyEV2_unpadded_rejected_witness :
    changeKeyEV2 (fun _ _ _ => [])
        ⟨some 0xA10001, true, true, some 0, some (List.replicate 16 1),
          some (List.replicate 16 2), none, 0⟩
        0 (List.replicate 16 0) 0 [] =
      ⟨.error "wrong final block length",
        ⟨some 0xA10001, true, true, some 0, some (List.replicate 16 1),
          some (List.replicate 16 2), none, 0⟩, [], []⟩ :=
  changeKeyEV2_unpadded_rejected (fun _ _ _ => [])
    ⟨some 0xA10001, true, true, some 0, some (List.replicate 16 1),
      some (List.replicate 16 2), none, 0⟩
    0 0 (List.replicate 16 0) (List.replicate 16 1) [] rfl rfl (by simp)

/-- Identity stand-in for the external DES cipher pair, used to drive the
model on concrete traces (any core satisfying enc and dec inverse on the
chosen nonces would do; with all-zero nonces the identity does). -/
def desIdCore : DesCore := ⟨fun _ _ d => d, fun _ _ d => d⟩

/-- Run 1 of the C1 scenario: Select(0xA10001) answered with 91 00. -/
def c1SelectA : OpOut :=
  selectApplication initialState 0xA10001 [⟨0x91, 0x00, []⟩]

/-- Run 2 of the C1 scenario: authenticateDES with key 0, the card answering
enc(RndB) under 91 AF and enc(rol1(RndA)) under 91 00; with the identity
core and all-zero nonces the verification succeeds. -/
def c1Auth : OpOut :=
  authenticateDES desIdCore (List.replicate 8 0) c1SelectA.state 0
    (some (List.replicate 16 0))
    [⟨0x91, 0xAF, List.replicate 8 0⟩, ⟨0x91, 0x00, List.replicate 8 0⟩]

/-- Run 3 of the C1 scenario: Select(0xA20001) answered with 91 00. -/
def c1SelectB : OpOut :=
  selectApplication c1Auth.state 0xA20001 [⟨0x91, 0x00, []⟩]

/-- C1: evaluating the code on the literal Select(A); Auth(A, K0); Select(B)
sequence, every step succeeds yet the final state still has
authenticated = true and the key number of the stale session, because
selectApplication only updates currentApp and never calls resetAuth.  The
claim (and the specification invariant) demand authenticated = false
here. -/
theorem selectApplication_keeps_authentication :
    c1SelectA.result = .ok () ∧
    c1Auth.result = .ok () ∧
    c1Auth.state.authenticated = true ∧
    c1SelectB.result = .ok () ∧
    c1SelectB.state.currentApp = some 0xA20001 ∧
    c1SelectB.state.authenticated = true ∧
    c1SelectB.state.authenticatedKeyNo = some 0 := by
  decide

/-- Authenticated session state used for the C2 failing execution: a session
holding both session keys. -/
def c2State : CardState :=
  ⟨some 0xA10001, true, true, some 0, some (List.replicate 16 1),
    some (List.replicate 16 2), none, 0⟩

/-- The C2 failing execution: authenticateDES(3) whose first card response
carries the error status 91 AE. -/
def c2Run : OpOut :=
  authenticateDES desIdCore (List.replicate 8 0) c2State 3 none
    [⟨0x91, 0xAE, []⟩]

/-- C2: when the first handshake response of authenticateDES is the error
status 91 AE the method raises, yet the previously established session
survives: authenticated stays true and neither session key is zeroized or
dropped, contradicting the claim that every failed authentication clears
the session before the error propagates. -/
theorem authenticateDES_failure_keeps_session :
    c2Run.result = .error "DESFire Authenticate (DES) failed" ∧
    c2Run.state.authenticated = true ∧
    c2Run.state.authenticatedKeyNo = some 0 ∧
    c2Run.state.sessionKeyEnc = some (List.replicate 16 1) ∧
    c2Run.state.sessionKeyMac = some (List.replicate 16 2) := by
  decide

lemma tryTransmitAttempts_accept_first (pref : Bool) (a : List Nat × Bool)
    (rest : List (List Nat × Bool)) (p : Parsed) (tr : List Parsed)
    (hp : (APDU.isSuccess p.sw1 p.sw2 || APDU.isAdditionalFrame p.sw1 p.sw2) = true) :
    tryTransmitAttempts pref (a :: rest) (p :: tr) = ⟨.ok p, !a.2, tr, [a.1]⟩ := by
  obtain ⟨apdu, usesLe⟩ := a
  simp [tryTransmitAttempts, tryAux, hp]

lemma tryTransmitAttempts_other_first (pref : Bool) (a : List Nat × Bool)
    (rest : List (List Nat × Bool)) (p : Parsed) (tr : List Parsed)
    (hp : (APDU.isSuccess p.sw1 p.sw2 || APDU.isAdditionalFrame p.sw1 p.sw2) = false)
    (hl : (p.sw1 == 0x91 && (p.sw2 == 0x7E || p.sw2 == 0xA1)) = false) :
    tryTransmitAttempts pref (a :: rest) (p :: tr) = ⟨.ok p, pref, tr, [a.1]⟩ := by
  obtain ⟨apdu, usesLe⟩ := a
  simp [tryTransmitAttempts, tryAux, hp, hl]

lemma tryTransmitAttempts_length_error_first (pref : Bool) (a : List Nat × Bool)
    (rest : List (List Nat × Bool)) (p : Parsed) (tr : List Parsed)
    (hp : (APDU.isSuccess p.sw1 p.sw2 || APDU.isAdditionalFrame p.sw1 p.sw2) = false)
    (hl : (p.sw1 == 0x91 && (p.sw2 == 0x7E || p.sw2 == 0xA1)) = true) :
    tryTransmitAttempts pref (a :: rest) (p :: tr) =
      tryAux pref (some p) rest tr [a.1] := by
  obtain ⟨apdu, usesLe⟩ := a
  simp [tryTransmitAttempts, tryAux, hp, hl]

/-- ADDITIONAL_FRAME no-data APDU preferred by a given Le preference. -/
def afApdu (pref : Bool) : List Nat :=
  if pref then [0x90, 0xAF, 0x00, 0x00] else [0x90, 0xAF, 0x00, 0x00, 0x00]

lemma noDataAttempts_af (pref : Bool) :
    noDataAttempts 0xAF pref =
      (afApdu pref, !pref) ::
        (if pref then [([0x90, 0xAF, 0x00, 0x00, 0x00], true)]
         else [([0x90, 0xAF, 0x00, 0x00], false)]) := by
  cases pref <;> simp [noDataAttempts, afApdu]

lemma getAdditionalFrame_run (pref : Bool) (mids : List Parsed) (q : Parsed)
    (rest : List Parsed)
    (hm : ∀ p ∈ mids, p.sw1 = 0x91 ∧ p.sw2 = 0xAF)
    (hq1 : APDU.isAdditionalFrame q.sw1 q.sw2 = false)
    (hq2 : (q.sw1 == 0x91 && (q.sw2 == 0x7E || q.sw2 == 0xA1)) = false) :
    getAdditionalFrame pref (mids ++ q :: rest) =
      ⟨.ok ((mids.map Parsed.data).flatten ++ q.data), pref, rest,
        List.replicate (mids.length + 1) (afApdu pref)⟩ := by
  induction mids with
  | nil =>
    have hstep : tryTransmitAttempts pref (noDataAttempts 0xAF pref) (q :: rest) =
        ⟨.ok q, pref, rest, [afApdu pref]⟩ := by
      rw [noDataAttempts_af]
      by_cases hacc : (APDU.isSuccess q.sw1 q.sw2 || APDU.isAdditionalFrame q.sw1 q.sw2) = true
      · rw [tryTransmitAttempts_accept_first _ _ _ _ _ hacc]
        simp
      · rw [tryTransmitAttempts_other_first _ _ _ _ _ (by simpa using hacc) hq2]
    rw [List.nil_append, getAdditionalFrame, hstep]
    simp [hq1]
  | cons p mids ih =>
    have hp := hm p (by simp)
    have hacc : (APDU.isSuccess p.sw1 p.sw2 || APDU.isAdditionalFrame p.sw1 p.sw2) = true := by
      simp [APDU.isSuccess, APDU.isAdditionalFrame, hp.1, hp.2]
    have hAF : APDU.isAdditionalFrame p.sw1 p.sw2 = true := by
      simp [APDU.isAdditionalFrame, hp.1, hp.2]
    have hstep : tryTransmitAttempts pref (noDataAttempts 0xAF pref)
        (p :: (mids ++ q :: rest)) =
        ⟨.ok p, pref, mids ++ q :: rest, [afApdu pref]⟩ := by
      rw [noDataAttempts_af, tryTransmitAttempts_accept_first _ _ _ _ _ hacc]
      simp
    have ihm : ∀ r ∈ mids, r.sw1 = 0x91 ∧ r.sw2 = 0xAF := fun r hr =>
      hm r (by simp [hr])
    rw [List.cons_append, getAdditionalFrame, hstep]
    simp only [hAF, if_true]
    rw [ih ihm]
    simp [List.replicate_succ]

lemma sendCommandAttempts_first (cmd : Nat) (data : Option (List Nat)) (pref : Bool) :
    ∃ a rest, sendCommandAttempts cmd data pref = a :: rest ∧ a.2 = !pref := by
  have hno : ∃ a rest, noDataAttempts cmd pref = a :: rest ∧ a.2 = !pref := by
    cases pref <;> exact ⟨_, _, rfl, rfl⟩
  have hwith : ∀ d, ∃ a rest, withDataAttempts cmd d pref = a :: rest ∧ a.2 = !pref := by
    intro d
    cases pref <;> exact ⟨_, _, rfl, rfl⟩
  cases data with
  | none => simpa [sendCommandAttempts] using hno
  | some d =>
    by_cases hd : d.length ≠ 0
    · simpa [sendCommandAttempts, hd] using hwith d
    · simpa [sendCommandAttempts, hd] using hno

lemma sendCommand_run (st : CardState) (cmd : Nat) (data : Option (List Nat))
    (frag0 : List Nat) (mids : List Parsed) (q : Parsed) (rest : List Parsed)
    (hm : ∀ p ∈ mids, p.sw1 = 0x91 ∧ p.sw2 = 0xAF)
    (hq1 : APDU.isAdditionalFrame q.sw1 q.sw2 = false)
    (hq2 : (q.sw1 == 0x91 && (q.sw2 == 0x7E || q.sw2 == 0xA1)) = false) :
    (sendCommand st cmd data (⟨0x91, 0xAF, frag0⟩ :: (mids ++ q :: rest))).result =
      .ok (frag0 ++ ((mids.map Parsed.data).flatten ++ q.data)) := by
  obtain ⟨a, arest, hatt, hle⟩ := sendCommandAttempts_first cmd data st.preferNoLe
  have hstep : tryTransmitAttempts st.preferNoLe
      (sendCommandAttempts cmd data st.preferNoLe)
      (⟨0x91, 0xAF, frag0⟩ :: (mids ++ q :: rest)) =
      ⟨.ok ⟨0x91, 0xAF, frag0⟩, !a.2, mids ++ q :: rest, [a.1]⟩ := by
    rw [hatt]
    exact tryTransmitAttempts_accept_first _ _ _ _ _ rfl
  have hpref : (!a.2) = st.preferNoLe := by rw [hle, Bool.not_not]
  simp only [sendCommand, hstep, hpref]
  rw [getAdditionalFrame_run st.preferNoLe mids q rest hm hq1 hq2]
  simp [APDU.isSuccess, APDU.isAdditionalFrame]

/-- C4: when the first response to a command carries status 91 AF,
sendCommand returns the concatenation of the payload fragments of the
initial response and of every response to the successive ADDITIONAL_FRAME
commands, up to and including the first response with status 91 00. -/
theorem sendCommand_reassembles (st : CardState) (cmd : Nat)
    (data : Option (List Nat)) (frag0 : List Nat) (mids : List Parsed)
    (final : Parsed)
    (hm : ∀ p ∈ mids, p.sw1 = 0x91 ∧ p.sw2 = 0xAF)
    (hf1 : final.sw1 = 0x91) (hf2 : final.sw2 = 0x00) :
    (sendCommand st cmd data (⟨0x91, 0xAF, frag0⟩ :: (mids ++ [final]))).result =
      .ok (frag0 ++ ((mids.map Parsed.data).flatten ++ final.data)) :=
  sendCommand_run st cmd data frag0 mids final [] hm
    (by simp [APDU.isAdditionalFrame, hf1, hf2])
    (by simp [hf1, hf2])

/-- Witness for C4: GET_APPLICATION_IDS with fragments [1], [2] and a final
91 00 frame carrying [3] reassembles to [1, 2, 3]. -/
theorem sendCommand_reassembles_witness :
    (sendCommand initialState 0x6A none
        [⟨0x91, 0xAF, [1]⟩, ⟨0x91, 0xAF, [2]⟩, ⟨0x91, 0x00, [3]⟩]).result =
      .ok [1, 2, 3] := by
  have h := sendCommand_reassembles initialState 0x6A none [1]
    [⟨0x91, 0xAF, [2]⟩] ⟨0x91, 0x00, [3]⟩ (by simp) rfl rfl
  simpa using h

/-- C8: when an intermediate continuation response carries a non-success,
non-continuation status such as 91 AE, getAdditionalFrame simply stops and
returns the accumulated payload with an ok result, and sendCommand yields
exactly the same ok payload as it would for a properly terminated 91 00
transfer: the caller cannot distinguish the truncated transfer from a
completed one. -/
theorem truncated_transfer_indistinguishable (st : CardState) (cmd : Nat)
    (data : Option (List Nat)) (frag0 d : List Nat) (mids : List Parsed)
    (pref : Bool)
    (hm : ∀ p ∈ mids, p.sw1 = 0x91 ∧ p.sw2 = 0xAF) :
    getAdditionalFrame pref (mids ++ [⟨0x91, 0xAE, d⟩]) =
      ⟨.ok ((mids.map Parsed.data).flatten ++ d), pref, [],
        List.replicate (mids.length + 1) (afApdu pref)⟩ ∧
    (sendCommand st cmd data
        (⟨0x91, 0xAF, frag0⟩ :: (mids ++ [⟨0x91, 0xAE, d⟩]))).result =
      (sendCommand st cmd data
        (⟨0x91, 0xAF, frag0⟩ :: (mids ++ [⟨0x91, 0x00, d⟩]))).result ∧
    (sendCommand st cmd data
        (⟨0x91, 0xAF, frag0⟩ :: (mids ++ [⟨0x91, 0xAE, d⟩]))).result =
      .ok (frag0 ++ ((mids.map Parsed.data).flatten ++ d)) := by
  have h1 := getAdditionalFrame_run pref mids ⟨0x91, 0xAE, d⟩ [] hm rfl rfl
  have h2 := sendCommand_run st cmd data frag0 mids ⟨0x91, 0xAE, d⟩ [] hm rfl rfl
  have h3 := sendCommand_run st cmd data frag0 mids ⟨0x91, 0x00, d⟩ [] hm rfl rfl
  exact ⟨h1, by rw [h2, h3], h2⟩

/-- Witness for C8: a READ_DATA transfer truncated by 91 AE after fragments
[1], [2] returns ok [1, 2, 3] exactly like the completed transfer. -/
theorem truncated_transfer_indistinguishable_witness :
    (sendCommand initialState 0xBD none
        [⟨0x91, 0xAF, [1]⟩, ⟨0x91, 0xAF, [2]⟩, ⟨0x91, 0xAE, [3]⟩]).result =
      .ok [1, 2, 3] ∧
    (sendCommand initialState 0xBD none
        [⟨0x91, 0xAF, [1]⟩, ⟨0x91, 0xAF, [2]⟩, ⟨0x91, 0xAE, [3]⟩]).result =
      (sendCommand initialState 0xBD none
        [⟨0x91, 0xAF, [1]⟩, ⟨0x91, 0xAF, [2]⟩, ⟨0x91, 0x00, [3]⟩]).result := by
  have h := truncated_transfer_indistinguishable initialState 0xBD none [1] [3]
    [⟨0x91, 0xAF, [2]⟩] true (by simp)
  exact ⟨by simpa using h.2.2, h.2.1⟩

/-- C5: the transmit engine tries the Le-absent and Le-present encodings in
the order given by the per-session preference (Le-absent first iff
preferNoLe, which initialState sets to true); a transmitted attempt ends the
loop with the preference set to the accepted form on success or
continuation, ends it with the preference unchanged on any other non-length
error, and advances to the remaining attempts exactly on a length error
91 7E / 91 A1; concretely, a 91 7E answer to 90 60 00 00 makes the engine
re-send 90 60 00 00 00, and its success flips preferNoLe to false for the
subsequent commands of the session. -/
theorem transmit_le_negotiation :
    initialState.preferNoLe = true ∧
    (∀ cmd : Nat,
      sendCommandAttempts cmd none true =
        [([0x90, cmd % 256, 0x00, 0x00], false),
         ([0x90, cmd % 256, 0x00, 0x00, 0x00], true)] ∧
      sendCommandAttempts cmd none false =
        [([0x90, cmd % 256, 0x00, 0x00, 0x00], true),
         ([0x90, cmd % 256, 0x00, 0x00], false)]) ∧
    (∀ (pref : Bool) (a : List Nat × Bool) (rest : List (List Nat × Bool))
       (p : Parsed) (tr : List Parsed),
      ((APDU.isSuccess p.sw1 p.sw2 || APDU.isAdditionalFrame p.sw1 p.sw2) = true →
        tryTransmitAttempts pref (a :: rest) (p :: tr) = ⟨.ok p, !a.2, tr, [a.1]⟩) ∧
      ((APDU.isSuccess p.sw1 p.sw2 || APDU.isAdditionalFrame p.sw1 p.sw2) = false →
        (p.sw1 == 0x91 && (p.sw2 == 0x7E || p.sw2 == 0xA1)) = true →
        tryTransmitAttempts pref (a :: rest) (p :: tr) =
          tryAux pref (some p) rest tr [a.1]) ∧
      ((APDU.isSuccess p.sw1 p.sw2 || APDU.isAdditionalFrame p.sw1 p.sw2) = false →
        (p.sw1 == 0x91 && (p.sw2 == 0x7E || p.sw2 == 0xA1)) = false →
        tryTransmitAttempts pref (a :: rest) (p :: tr) = ⟨.ok p, pref, tr, [a.1]⟩)) ∧
    (∀ (st : CardState) (d : List Nat), st.preferNoLe = true →
      sendCommand st 0x60 none [⟨0x91, 0x7E, []⟩, ⟨0x91, 0x00, d⟩] =
        ⟨.ok d, { st with preferNoLe := false }, [],
          [[0x90, 0x60, 0x00, 0x00], [0x90, 0x60, 0x00, 0x00, 0x00]]⟩) := by
  refine ⟨rfl, fun cmd => ⟨rfl, rfl⟩, fun pref a rest p tr => ?_, fun st d hpref => ?_⟩
  · exact ⟨fun h => tryTransmitAttempts_accept_first pref a rest p tr h,
      fun h1 h2 => tryTransmitAttempts_length_error_first pref a rest p tr h1 h2,
      fun h1 h2 => tryTransmitAttempts_other_first pref a rest p tr h1 h2⟩
  · simp [sendCommand, sendCommandAttempts, noDataAttempts, tryTransmitAttempts,
      tryAux, hpref, APDU.isSuccess, APDU.isAdditionalFrame]

/-- Witness for C5: the concrete 91 7E negotiation starting from the
initial state. -/
theorem transmit_le_negotiation_witness :
    sendCommand initialState 0x60 none [⟨0x91, 0x7E, []⟩, ⟨0x91, 0x00, [5]⟩] =
      ⟨.ok [5], { initialState with preferNoLe := false }, [],
        [[0x90, 0x60, 0x00, 0x00], [0x90, 0x60, 0x00, 0x00, 0x00]]⟩ :=
  transmit_le_negotiation.2.2.2 initialState [5] rfl

lemma accepted_not_length_error (p : Parsed)
    (h : (APDU.isSuccess p.sw1 p.sw2 || APDU.isAdditionalFrame p.sw1 p.sw2) = true) :
    (p.sw1 == 0x91 && (p.sw2 == 0x7E || p.sw2 == 0xA1)) = false := by
  simp [APDU.isSuccess, APDU.isAdditionalFrame] at h ⊢
  omega

lemma accepted_not_failed (a b : Bool) (h : (a || b) = true) :
    (!a && !b) = false := by
  cases a <;> cases b <;> simp_all

lemma writeDataAF_step (data : List Nat) (sent : Nat) (p : Parsed)
    (tr : List Parsed) (log : List (List Nat))
    (hlt : sent < data.length)
    (hacc : (APDU.isSuccess p.sw1 p.sw2 || APDU.isAdditionalFrame p.sw1 p.sw2) = true) :
    writeDataAF data sent (p :: tr) log =
      writeDataAF data (sent + (writeDataChunk data sent).length) tr
        (log ++ [APDU.build 0x90 0xAF 0x00 0x00 (some (writeDataChunk data sent)) (some 0)]) := by
  have hle := accepted_not_length_error p hacc
  have hnf := accepted_not_failed _ _ hacc
  rw [writeDataAF, dif_pos hlt]
  simp [hle, hnf]

lemma writeDataAF_done (data : List Nat) (sent : Nat) (trace : List Parsed)
    (log : List (List Nat)) (h : ¬sent < data.length) :
    writeDataAF data sent trace log = ⟨.ok (), trace, log⟩ := by
  rw [writeDataAF, dif_neg h]

lemma chunksFrom_flatten (data : List Nat) : ∀ sent : Nat,
    (chunksFrom data sent).flatten = data.drop sent := by
  have key : ∀ (n sent : Nat), data.length - sent = n →
      (chunksFrom data sent).flatten = data.drop sent := by
    intro n
    induction n using Nat.strong_induction_on with
    | _ n ih =>
    intro sent hn
    subst hn
    rw [chunksFrom]
    by_cases h : sent < data.length
    · rw [dif_pos h]
      have hclen := writeDataChunk_length data sent
      have hpos := writeDataChunk_length_pos data sent h
      simp only [List.flatten_cons]
      rw [ih (data.length - (sent + (writeDataChunk data sent).length)) (by omega) _ rfl]
      have hdd : data.drop (sent + (writeDataChunk data sent).length) =
          (data.drop sent).drop (min (data.length - sent) MAX_CHUNK) := by
        rw [hclen, List.drop_drop]
      rw [hdd, writeDataChunk]
      exact List.take_append_drop _ _
    · rw [dif_neg h]
      simp only [List.flatten_nil]
      exact (List.drop_eq_nil_of_le (by omega)).symm
  intro sent
  exact key _ sent rfl

lemma chunksFrom_chunk_le (data : List Nat) : ∀ (sent : Nat) (c : List Nat),
    c ∈ chunksFrom data sent → c.length ≤ MAX_CHUNK := by
  have key : ∀ (n sent : Nat), data.length - sent = n →
      ∀ c ∈ chunksFrom data sent, c.length ≤ MAX_CHUNK := by
    intro n
    induction n using Nat.strong_induction_on with
    | _ n ih =>
    intro sent hn
    subst hn
    intro c hc
    rw [chunksFrom] at hc
    by_cases h : sent < data.length
    · rw [dif_pos h] at hc
      rcases List.mem_cons.mp hc with hc1 | hc2
      · subst hc1
        rw [writeDataChunk_length]
        omega
      · have hpos := writeDataChunk_length_pos data sent h
        exact ih (data.length - (sent + (writeDataChunk data sent).length)) (by omega)
          _ rfl c hc2
    · rw [dif_neg h] at hc
      simp at hc
  intro sent c hc
  exact key _ sent rfl c hc

/-- C6: writeData(1, 0, data) for a 130-byte buffer emits exactly one lead
frame under opcode 0x3D whose payload is fileNo, offset (3 LE), length
(3 LE) and the first 40 data bytes, then three ADDITIONAL_FRAME frames
carrying the 40, 40 and 10 remaining bytes; in general every loop chunk
carries at most MAX_CHUNK = 40 bytes and the lead chunk plus the loop
chunks concatenate back to exactly the caller's data. -/
theorem writeData_chunked_frames :
    (∀ (data : List Nat) (p1 p2 p3 p4 : Parsed),
      data.length = 130 →
      (APDU.isSuccess p1.sw1 p1.sw2 || APDU.isAdditionalFrame p1.sw1 p1.sw2) = true →
      (APDU.isSuccess p2.sw1 p2.sw2 || APDU.isAdditionalFrame p2.sw1 p2.sw2) = true →
      (APDU.isSuccess p3.sw1 p3.sw2 || APDU.isAdditionalFrame p3.sw1 p3.sw2) = true →
      (APDU.isSuccess p4.sw1 p4.sw2 || APDU.isAdditionalFrame p4.sw1 p4.sw2) = true →
      writeData 1 0 data [p1, p2, p3, p4] =
        ⟨.ok (), [],
          [APDU.buildDESFire 0x3D (some ([1, 0, 0, 0, 130, 0, 0] ++ data.take 40)) 0,
           APDU.build 0x90 0xAF 0x00 0x00 (some ((data.drop 40).take 40)) (some 0),
           APDU.build 0x90 0xAF 0x00 0x00 (some ((data.drop 80).take 40)) (some 0),
           APDU.build 0x90 0xAF 0x00 0x00 (some ((data.drop 120).take 10)) (some 0)]⟩ ∧
      (data.take 40).length = 40 ∧ ((data.drop 40).take 40).length = 40 ∧
      ((data.drop 80).take 40).length = 40 ∧ ((data.drop 120).take 10).length = 10 ∧
      data.take 40 ++
        ((data.drop 40).take 40 ++ ((data.drop 80).take 40 ++ (data.drop 120).take 10)) =
        data) ∧
    (∀ (data : List Nat) (sent : Nat) (c : List Nat),
      c ∈ chunksFrom data sent → c.length ≤ MAX_CHUNK) ∧
    (∀ (data : List Nat) (sent : Nat), (chunksFrom data sent).flatten = data.drop sent) ∧
    (∀ data : List Nat,
      data.take (min data.length MAX_CHUNK) ++
        (chunksFrom data (data.take (min data.length MAX_CHUNK)).length).flatten =
        data) := by
  refine ⟨?_, chunksFrom_chunk_le, chunksFrom_flatten, ?_⟩
  · intro data p1 p2 p3 p4 hlen h1 h2 h3 h4
    have hnf1 := accepted_not_failed _ _ h1
    have e40 : writeDataChunk data 40 = (data.drop 40).take 40 := by
      rw [writeDataChunk, hlen]
      norm_num [MAX_CHUNK]
    have l40 : (writeDataChunk data 40).length = 40 := by
      rw [writeDataChunk_length, hlen]
      norm_num [MAX_CHUNK]
    have e80 : writeDataChunk data 80 = (data.drop 80).take 40 := by
      rw [writeDataChunk, hlen]
      norm_num [MAX_CHUNK]
    have l80 : (writeDataChunk data 80).length = 40 := by
      rw [writeDataChunk_length, hlen]
      norm_num [MAX_CHUNK]
    have e120 : writeDataChunk data 120 = (data.drop 120).take 10 := by
      rw [writeDataChunk, hlen]
      norm_num [MAX_CHUNK]
    have l120 : (writeDataChunk data 120).length = 10 := by
      rw [writeDataChunk_length, hlen]
      norm_num [MAX_CHUNK]
    have hfcl : (data.take 40).length = 40 := by
      rw [List.length_take, hlen]
      omega
    refine ⟨?_, hfcl, by simp [hlen], by simp [hlen], by simp [hlen], ?_⟩
    · have hmin : (130 : Nat) ⊓ MAX_CHUNK = 40 := by norm_num [MAX_CHUNK]
      simp only [writeData, hlen, hmin]
      simp only [hnf1, Bool.false_eq_true, if_false]
      rw [hfcl]
      rw [writeDataAF_step data 40 p2 _ _ (by omega) h2, l40, e40]
      norm_num
      rw [writeDataAF_step data 80 p3 _ _ (by omega) h3, l80, e80]
      norm_num
      rw [writeDataAF_step data 120 p4 _ _ (by omega) h4, l120, e120]
      norm_num
      rw [writeDataAF_done data 130 [] _ (by omega)]
      simp [uintLE3]
    · have s80 : (data.drop 80).take 40 ++ (data.drop 120).take 10 = data.drop 80 := by
        have ha : (data.drop 120).take 10 = data.drop 120 := by
          have hl : (data.drop 120).length = 10 := by simp [hlen]
          conv_lhs => rw [← hl]
          exact List.take_length _
        have hb : data.drop 120 = (data.drop 80).drop 40 := by
          rw [List.drop_drop]
        rw [ha, hb]
        exact List.take_append_drop _ _
      have s40 : (data.drop 40).take 40 ++ data.drop 80 = data.drop 40 := by
        have hb : data.drop 80 = (data.drop 40).drop 40 := by
          rw [List.drop_drop]
        rw [hb]
        exact List.take_append_drop _ _
      rw [s80, s40]
      exact List.take_append_drop _ _
  · intro data
    rw [chunksFrom_flatten]
    have hm : min data.length MAX_CHUNK ≤ data.length := Nat.min_le_left _ _
    rw [List.length_take, Nat.min_eq_left hm]
    exact List.take_append_drop _ _

/-- Witness for C6: a concrete 130-byte buffer written with four accepting
card responses succeeds. -/
theorem writeData_chunked_frames_witness :
    (writeData 1 0 (List.range 130)
        [⟨0x91, 0xAF, []⟩, ⟨0x91, 0xAF, []⟩, ⟨0x91, 0xAF, []⟩, ⟨0x91, 0x00, []⟩]).result =
      .ok () := by
  have h := writeData_chunked_frames.1 (List.range 130) ⟨0x91, 0xAF, []⟩
    ⟨0x91, 0xAF, []⟩ ⟨0x91, 0xAF, []⟩ ⟨0x91, 0x00, []⟩ (by simp) rfl rfl rfl rfl
  rw [h.1]
